import Mathlib

/-!
Shallow embedding of the campaign health-check engine
(src/app/checker.py, src/app/storage.py, src/app/scheduler.py,
src/app/telegram.py) and proofs about its specified behaviour.

Python runtime values that flow through the checker are modelled by the
inductive `Value`; Python `float` is modelled by `Rat`; machine wall-clock
times and epochs by `Int`.  External effects (DNS resolution, HTTP
transport, URL parsing from the standard library) are supplied as oracle
functions so that the control flow of the repository code is embedded
exactly while the environment stays abstract.
-/

namespace DomainCheck

/-- Model of a Python/JSON value as consumed by the checker module. -/
inductive Value where
  | vNull : Value
  | vBool : Bool → Value
  | vInt : Int → Value
  | vFloat : Rat → Value
  | vStr : String → Value
  | vList : List Value → Value
  | vDict : List (String × Value) → Value

/-- Python dict with string keys, as JSON objects are decoded. -/
def PyDict : Type := List (String × Value)

/-- Exceptions the embedded code paths can raise. -/
inductive PyError where
  | valueError : PyError
  | typeError : PyError
  | attributeError : PyError
deriving Repr, DecidableEq

/-- Characters stripped by Python's `str.strip()` family. -/
def pyIsSpace (c : Char) : Bool :=
  c = ' ' || c = '\t' || c = '\n' || c = '\r' || c = '\x0b' || c = '\x0c'

/-- Strip leading and trailing whitespace from a character list. -/
def stripList (l : List Char) : List Char :=
  ((l.dropWhile pyIsSpace).reverse.dropWhile pyIsSpace).reverse

/-- Python `str.strip()`. -/
def pyStrip (s : String) : String :=
  String.mk (stripList s.data)

/-- Python `str.rstrip()`. -/
def pyRstrip (s : String) : String :=
  String.mk ((s.data.reverse.dropWhile pyIsSpace).reverse)

/-- Python's substring test `needle in hay`. -/
def strContains (needle hay : String) : Bool :=
  decide (needle.data <:+: hay.data)

/-- Truthiness of a Python value (`bool(v)`). -/
def pyTruthy : Value → Bool
  | .vNull => false
  | .vBool b => b
  | .vInt n => decide (n ≠ 0)
  | .vFloat q => decide (q ≠ 0)
  | .vStr s => decide (s ≠ "")
  | .vList xs => !xs.isEmpty
  | .vDict es => !es.isEmpty

/-- Python `v or dflt`. -/
def pyOr (v dflt : Value) : Value :=
  if pyTruthy v then v else dflt

/-- Python `d.get(k)`: `none` models an absent key (Python returns `None`,
which the callers test with `is not None`, so absence and a stored null are
distinguished here only where the source distinguishes them). -/
def pyGet (d : PyDict) (k : String) : Option Value :=
  match d with
  | [] => none
  | p :: ps => if p.1 = k then some p.2 else pyGet ps k

/-- Python `str(v)` restricted to the scalar shapes the embedded code paths
feed it; container and float rendering is schematic (the theorems never
depend on it, since both the code model and the statements stringify with
this same function). -/
def pyStrOf : Value → String
  | .vNull => "None"
  | .vBool b => cond b "True" "False"
  | .vInt n => toString n
  | .vFloat q => toString q.num ++ "." ++ toString q.den
  | .vStr s => s
  | .vList _ => "<list>"
  | .vDict _ => "<dict>"

/-- Decimal value of a digit list (callers check `digitsOk` first). -/
def digitsNum (l : List Char) : Nat :=
  l.foldl (fun a c => a * 10 + (c.toNat - 48)) 0

/-- All characters are ASCII digits. -/
def digitsOk (l : List Char) : Bool :=
  l.all Char.isDigit

/-- Python `int(s)` on a string: optional sign then digits, whitespace
stripped; `none` models `ValueError`. -/
def pyIntParse (s : String) : Option Int :=
  let l := stripList s.data
  match l with
  | '+' :: rest =>
    if digitsOk rest ∧ rest ≠ [] then some ((digitsNum rest : Nat) : Int) else none
  | '-' :: rest =>
    if digitsOk rest ∧ rest ≠ [] then some (-((digitsNum rest : Nat) : Int)) else none
  | rest =>
    if digitsOk rest ∧ rest ≠ [] then some ((digitsNum rest : Nat) : Int) else none

/-- Unsigned decimal (`"5"`, `"5."`, `".5"`, `"0.25"`) as a rational. -/
def parseUnsignedDec (l : List Char) : Option Rat :=
  let ip := l.takeWhile Char.isDigit
  let rest := l.drop ip.length
  match rest with
  | [] => if ip.isEmpty then none else some ((digitsNum ip : Nat) : Rat)
  | '.' :: fp =>
    if digitsOk fp ∧ ¬(ip.isEmpty ∧ fp.isEmpty) then
      some (((digitsNum ip : Nat) : Rat) + ((digitsNum fp : Nat) : Rat) / ((10 : Rat) ^ fp.length))
    else none
  | _ => none

/-- Python `float(s)` on a string (decimal forms; `none` models `ValueError`). -/
def pyFloatParse (s : String) : Option Rat :=
  let l := stripList s.data
  match l with
  | '+' :: rest => parseUnsignedDec rest
  | '-' :: rest => (parseUnsignedDec rest).map (fun q => -q)
  | rest => parseUnsignedDec rest

/-- Python `float(v)`: `none` models the exception branch of the callers'
`try: float(v) except: continue`. -/
def pyFloatOf : Value → Option Rat
  | .vInt n => some ((n : Int) : Rat)
  | .vFloat q => some q
  | .vBool b => some (cond b 1 0)
  | .vStr s => pyFloatParse s
  | _ => none

/-- Python `str.lower()` (ASCII-faithful, applied per character). -/
def pyLower (s : String) : String :=
  String.mk (s.data.map Char.toLower)

/-- UrlCheck dataclass (src/app/checker.py lines 17–25). -/
structure UrlCheck where
  ok : Bool
  failure_type : Option String := none
  message : Option String := none
  tested_url : Option String := none
  final_url : Option String := none
  http_status : Option Int := none
  elapsed_ms : Option Int := none
deriving Repr, DecidableEq

/-- Embedding of `_pick_number` (src/app/checker.py lines 28–37): first key
whose value is present, non-null and float-convertible wins. -/
def _pick_number (d : PyDict) : List String → Option Rat
  | [] => none
  | k :: ks =>
    match pyGet d k with
    | none => _pick_number d ks
    | some .vNull => _pick_number d ks
    | some v =>
      match pyFloatOf v with
      | some x => some x
      | none => _pick_number d ks

/-- Embedding of `_pick_str` (src/app/checker.py lines 40–45): first key
holding a string with non-empty strip wins, returned stripped. -/
def _pick_str (d : PyDict) : List String → Option String
  | [] => none
  | k :: ks =>
    match pyGet d k with
    | some (.vStr s) => if pyStrip s ≠ "" then some (pyStrip s) else _pick_str d ks
    | _ => _pick_str d ks

/-- Embedding of `dns_check` (src/app/checker.py lines 48–55); the resolver
oracle returns `none` on success and the exception text on failure. -/
def dns_check (resolver : String → Option String) (hostname : String) : Bool × Option String :=
  match resolver hostname with
  | none => (true, none)
  | some e => (false, some e)

/-- Fields of an HTTP response the checker reads. -/
structure HttpResponse where
  status_code : Int
  content_type : Option String
  text : String
  url : String
deriving Repr, DecidableEq

/-- Outcome of one transport-level GET as classified by the source's
`except` arms. -/
inductive HttpOutcome where
  | response : HttpResponse → HttpOutcome
  | timeout : HttpOutcome
  | requestError : String → HttpOutcome
  | otherError : String → HttpOutcome
deriving Repr, DecidableEq

/-- Embedding of `http_check` (src/app/checker.py lines 58–89).  The
transport outcome and the measured elapsed milliseconds are inputs, since
they come from the network and the wall clock. -/
def http_check (url : String) (outcome : HttpOutcome) (elapsed_ms : Int) : UrlCheck :=
  match outcome with
  | .response r =>
    let ok : Bool := decide (200 ≤ r.status_code) && decide (r.status_code < 400)
    let ctype : String := pyLower (r.content_type.getD "")
    let content_ok : Bool :=
      if strContains "text/html" ctype then !decide ((pyStrip r.text).length < 200) else true
    if ok && content_ok then
      { ok := true, tested_url := some url, final_url := some r.url,
        http_status := some r.status_code, elapsed_ms := some elapsed_ms }
    else
      { ok := false, failure_type := some "http",
        message := some ("HTTP " ++ toString r.status_code ++
          (if ok && !content_ok then "; content too small" else "")),
        tested_url := some url, final_url := some r.url,
        http_status := some r.status_code, elapsed_ms := some elapsed_ms }
  | .timeout =>
    { ok := false, failure_type := some "timeout", message := some "timeout",
      tested_url := some url, elapsed_ms := some elapsed_ms }
  | .requestError e =>
    { ok := false, failure_type := some "http", message := some e,
      tested_url := some url, elapsed_ms := some elapsed_ms }
  | .otherError e =>
    { ok := false, failure_type := some "other", message := some e,
      tested_url := some url, elapsed_ms := some elapsed_ms }

/-- Python iteration `for x in v`: lists yield elements, strings yield
one-character strings, dicts yield their keys; other truthy values raise
`TypeError`. -/
def pyIter : Value → Except PyError (List Value)
  | .vList xs => .ok xs
  | .vStr s => .ok (s.data.map (fun c => .vStr (String.mk [c])))
  | .vDict es => .ok (es.map (fun p => Value.vStr p.1))
  | _ => .error .typeError

/-- Python attribute call `v.get(k)`: only dicts have `.get`; any other
receiver raises `AttributeError`. -/
def pyGetMethod (v : Value) (k : String) : Except PyError (Option Value) :=
  match v with
  | .vDict es => .ok (pyGet es k)
  | _ => .error .attributeError

/-- Python `d.get(k) or dflt` on a dict known to be one. -/
def getOr (d : PyDict) (k : String) (dflt : Value) : Value :=
  pyOr ((pyGet d k).getD .vNull) dflt

/-- One `for l in (xs or []): lid = (l or \x7b\x7d).get("id"); if lid: add(str(lid))`
pass from `extract_urls_from_campaign` (src/app/checker.py lines 103–110),
collecting in traversal order (the source adds to a set; membership is
identical and the result is sorted afterwards). -/
def collectIdsFrom (xs : Option Value) (acc : List String) : Except PyError (List String) := do
  let items ← pyIter (pyOr (xs.getD .vNull) (.vList []))
  items.foldlM (fun a l => do
    let lidGot ← pyGetMethod (pyOr l (.vDict [])) "id"
    let lid := lidGot.getD .vNull
    pure (if pyTruthy lid then a ++ [pyStrOf lid] else a)) acc

/-- Walk of every stream's `landings` and `prelandings` sub-lists
(src/app/checker.py lines 100–110). -/
def collectLandingIds (c : PyDict) : Except PyError (List String) := do
  let streams ← pyIter (getOr c "streams" (.vList []))
  streams.foldlM (fun acc cs => do
    let streamGot ← pyGetMethod (pyOr cs (.vDict [])) "stream"
    let stream := pyOr (streamGot.getD .vNull) (.vDict [])
    let landings ← pyGetMethod stream "landings"
    let acc2 ← collectIdsFrom landings acc
    let prelandings ← pyGetMethod stream "prelandings"
    collectIdsFrom prelandings acc2) []

/-- Result record of `extract_urls_from_campaign`. -/
structure Extracted where
  tracking_url : Option String
  domain_id : Option String
  landing_ids : List String
deriving Repr, DecidableEq

/-- Key preference list for the tracking URL (src/app/checker.py line 97). -/
def trackingKeys : List String :=
  ["trackback_url", "impression_url", "campaign_url", "url", "tracking_url"]

/-- Embedding of `extract_urls_from_campaign` (src/app/checker.py lines
92–116).  The source builds a Python set and applies `sorted`; here the
collected list is deduplicated and merge-sorted, which produces the same
sorted duplicate-free list. -/
def extract_urls_from_campaign (c : PyDict) : Except PyError Extracted :=
  match collectLandingIds c with
  | .error e => .error e
  | .ok ids =>
    .ok { tracking_url := _pick_str c trackingKeys,
          domain_id := _pick_str c ["domain_id"],
          landing_ids := ids.dedup.mergeSort (fun a b => decide (a ≤ b)) }

/-- Alternate key spellings for the campaign id in report rows
(src/app/checker.py line 138). -/
def cidKeys : List String := ["campaign_id", "id", "campaign", "campaignId"]

/-- Alternate key spellings for cost (src/app/checker.py line 145). -/
def costKeys : List String := ["cost", "spend", "total_cost", "totalCost"]

/-- Alternate key spellings for revenue (src/app/checker.py line 146). -/
def revKeys : List String := ["revenue", "rev", "total_revenue", "totalRevenue"]

/-- Campaign-id resolution for one report row (src/app/checker.py lines
137–141): first present, non-null key wins, stringified. -/
def resolveCid (row : PyDict) : List String → Option String
  | [] => none
  | k :: ks =>
    match pyGet row k with
    | none => resolveCid row ks
    | some .vNull => resolveCid row ks
    | some v => some (pyStrOf v)

/-- Known-campaign-id set (src/app/checker.py line 132), as a list whose
membership is the set membership. -/
def knownIds (campaigns : List PyDict) : List String :=
  campaigns.filterMap (fun c =>
    match pyGet c "id" with
    | none => none
    | some .vNull => none
    | some v => some (pyStrOf v))

/-- Values stored per retained campaign. -/
structure Stats where
  cost_30d : Rat
  revenue_30d : Rat
deriving Repr, DecidableEq

/-- Python dict assignment `out[cid] = v`: replace in place or append. -/
def pyInsert : List (String × Stats) → String → Stats → List (String × Stats)
  | [], k, v => [(k, v)]
  | p :: ps, k, v => if p.1 = k then (k, v) :: ps else p :: pyInsert ps k v

/-- Lookup in the output map. -/
def mapLookup : List (String × Stats) → String → Option Stats
  | [], _ => none
  | p :: ps, k => if p.1 = k then some p.2 else mapLookup ps k

/-- Cost extracted from a row with the `or 0.0` default
(src/app/checker.py line 145). -/
def rowCost (row : PyDict) : Rat :=
  (_pick_number row costKeys).getD 0

/-- Revenue extracted from a row with the `or 0.0` default
(src/app/checker.py line 146). -/
def rowRev (row : PyDict) : Rat :=
  (_pick_number row revKeys).getD 0

/-- Loop body of `filter_campaigns_with_activity` (src/app/checker.py lines
135–148): resolve the row's campaign id, drop falsy or unknown ids, store
the row's cost/revenue when either is positive. -/
def filterStep (ids : List String) (out : List (String × Stats)) (row : PyDict) :
    List (String × Stats) :=
  match resolveCid row cidKeys with
  | none => out
  | some cid =>
    if cid = "" ∨ cid ∉ ids then out
    else if 0 < rowCost row ∨ 0 < rowRev row then
      pyInsert out cid ⟨rowCost row, rowRev row⟩
    else out

/-- Embedding of `filter_campaigns_with_activity` (src/app/checker.py lines
128–150). -/
def filter_campaigns_with_activity (campaigns report_rows : List PyDict) :
    List (String × Stats) :=
  report_rows.foldl (filterStep (knownIds campaigns)) []

/-- Loop of `send_many` (src/app/telegram.py lines 38–51): accumulate lines
into `chunk`, flush on budget overflow, stop at the message cap, flush a
non-empty trailing chunk.  Returns the list of sent message texts. -/
def sendManyLoop (maxMessages : Int) :
    List String → String → Int → List String → List String
  | [], chunk, sent, acc =>
    if pyStrip chunk ≠ "" ∧ sent < maxMessages then acc ++ [pyRstrip chunk] else acc
  | line :: rest, chunk, sent, acc =>
    let add := line ++ "\n"
    if chunk.length + add.length > 3800 then
      if sent + 1 ≥ maxMessages then acc ++ [pyRstrip chunk]
      else sendManyLoop maxMessages rest add (sent + 1) (acc ++ [pyRstrip chunk])
    else sendManyLoop maxMessages rest (chunk ++ add) sent acc

/-- Embedding of `send_many` (src/app/telegram.py lines 30–52), returning
the ordered list of messages handed to `send_message`. -/
def send_many (lines : List String) (maxMessages : Int) (header : Option String) :
    List String :=
  match header with
  | some h =>
    if maxMessages - 1 ≤ 0 then [h] else h :: sendManyLoop (maxMessages - 1) lines "" 0 []
  | none =>
    if maxMessages ≤ 0 then [] else sendManyLoop maxMessages lines "" 0 []

/-- AppConfig dataclass (src/app/storage.py lines 12–33). -/
structure AppConfig where
  schedule_mode : String := "daily_at"
  interval_minutes : Int := 24 * 60
  run_at_hhmm : String := "17:00"
  days_lookback : Int := 30
  date_from : Option String := none
  date_to : Option String := none
  alert_on_first_failure : Bool := false
  last_run_epoch : Option Int := none
  last_run_local_date : Option String := none
deriving Repr, DecidableEq

/-- Wall-clock instant handed to the scheduler: the epoch second and the
local calendar date / minutes-of-day in the configured timezone.  The
comparison `now >= now.replace(hour=hh, minute=mm, second=0, microsecond=0)`
holds exactly when `hh*60+mm ≤ localMinutes`, because seconds and
microseconds are non-negative. -/
structure Now where
  epoch : Int
  localDate : String
  localMinutes : Nat
deriving Repr, DecidableEq

/-- Mode normalisation `(cfg.schedule_mode or "interval").lower()`
(src/app/storage.py line 58). -/
def normMode (cfg : AppConfig) : String :=
  pyLower (if cfg.schedule_mode = "" then "interval" else cfg.schedule_mode)

/-- Split a character list at its first colon. -/
def splitAtColon : List Char → Option (List Char × List Char)
  | [] => none
  | c :: cs =>
    if c = ':' then some ([], cs)
    else (splitAtColon cs).map (fun p => (c :: p.1, p.2))

/-- Parse `hh, mm = [int(x) for x in hhmm.split(":", 1)]` without the
fallback: `none` models the exception branch (src/app/storage.py lines
85–88). -/
def parseHHMMCore (raw : String) : Option (Int × Int) :=
  let hhmm := pyStrip (if raw = "" then "17:00" else raw)
  match splitAtColon hhmm.data with
  | none => none
  | some (a, b) =>
    match pyIntParse (String.mk a), pyIntParse (String.mk b) with
    | some hh, some mm => some (hh, mm)
    | _, _ => none

/-- Parsed trigger time with the source's `except: hh, mm = 17, 0` fallback. -/
def parseHHMM (raw : String) : Int × Int :=
  (parseHHMMCore raw).getD (17, 0)

/-- Embedding of `should_run_now` (src/app/storage.py lines 52–91).
`datetime.replace` raises `ValueError` when the parsed hour or minute is out
of range, and that call sits outside the `try`, so the embedded function is
fallible. -/
def should_run_now (cfg : AppConfig) (now : Now) : Except PyError Bool :=
  if normMode cfg = "interval" then
    match cfg.last_run_epoch with
    | none => .ok true
    | some last => .ok (decide (cfg.interval_minutes * 60 ≤ now.epoch - last))
  else
    if cfg.last_run_local_date = some now.localDate then .ok false
    else
      let p := parseHHMM cfg.run_at_hhmm
      if 0 ≤ p.1 ∧ p.1 ≤ 23 ∧ 0 ≤ p.2 ∧ p.2 ≤ 59 then
        .ok (decide (p.1 * 60 + p.2 ≤ (now.localMinutes : Int)))
      else .error .valueError

/-- Config as persisted by `_job` before the run starts
(src/app/scheduler.py lines 34–44). -/
def jobPersistedCfg (cfg : AppConfig) (now : Now) : AppConfig :=
  { cfg with last_run_epoch := some now.epoch, last_run_local_date := some now.localDate }

/-- Outcome of one scheduler tick. -/
inductive JobOutcome where
  | skipped : JobOutcome
  | ran : AppConfig → Bool → JobOutcome
deriving Repr, DecidableEq

/-- Observable events of one tick, in order. -/
inductive JobEvent where
  | persistConfig : AppConfig → JobEvent
  | runStart : JobEvent
  | runEnd : Bool → JobEvent
deriving Repr, DecidableEq

/-- Embedding of `_job` (src/app/scheduler.py lines 17–101): gate on
`should_run_now`, persist the updated config, then execute the run (whose
failure, modelled by `runRaises`, is caught and does not touch the config).
Returns the persisted config and the outcome. -/
def _job (cfg : AppConfig) (now : Now) (runRaises : Bool) :
    Except PyError (AppConfig × JobOutcome) :=
  match should_run_now cfg now with
  | .error e => .error e
  | .ok false => .ok (cfg, .skipped)
  | .ok true =>
    let cfg2 := jobPersistedCfg cfg now
    .ok (cfg2, .ran cfg2 (!runRaises))

/-- Event trace of one tick: the `save_config` call precedes the run body. -/
def jobTrace (cfg : AppConfig) (now : Now) (runRaises : Bool) : List JobEvent :=
  match should_run_now cfg now with
  | .error _ => []
  | .ok false => []
  | .ok true =>
    [.persistConfig (jobPersistedCfg cfg now), .runStart, .runEnd (!runRaises)]

/-- Environment oracles for the per-target check loop of `run_full_check`
(src/app/checker.py lines 234–252): URL host parsing and DNS are standard
library and network effects, HTTP attempts are numbered transport outcomes,
and `retries` is `CHECK_RETRIES`. -/
structure CheckEnv where
  parseHost : String → Option String
  resolver : String → Option String
  httpOutcome : Nat → HttpOutcome
  httpElapsed : Nat → Int
  retries : Nat

/-- One recorded check with its kind tag. -/
structure CheckRecord where
  kind : String
  result : UrlCheck
deriving Repr, DecidableEq

/-- Retry loop `for attempt in range(CHECK_RETRIES + 1)` (src/app/checker.py
lines 246–251), also counting how many HTTP attempts were made. -/
def runAttempts (env : CheckEnv) (url : String) :
    List Nat → Option UrlCheck × Nat → Option UrlCheck × Nat
  | [], acc => acc
  | i :: is, acc =>
    let res := http_check url (env.httpOutcome i) (env.httpElapsed i)
    if res.ok then (some res, acc.2 + 1) else runAttempts env url is (some res, acc.2 + 1)

/-- Per-target body of the check loop in `run_full_check`
(src/app/checker.py lines 234–252): DNS precheck when the URL has a host,
short-circuit on DNS failure, otherwise the HTTP retry loop; the second
component counts HTTP attempts. -/
def checkTarget (env : CheckEnv) (kind url : String) : CheckRecord × Nat :=
  let httpPart : CheckRecord × Nat :=
    let r := runAttempts env url (List.range (env.retries + 1)) (none, 0)
    ({ kind := kind,
       result := match r.1 with
         | some b => b
         | none => { ok := false, failure_type := some "other", message := some "unknown" } },
     r.2)
  match env.parseHost url with
  | none => httpPart
  | some host =>
    match dns_check env.resolver host with
    | (true, _) => httpPart
    | (false, msg) =>
      ({ kind := kind,
         result := { ok := false, failure_type := some "dns", message := msg,
                     tested_url := some url } }, 0)

/-! ## Helper lemmas -/

theorem strContains_append_of_right (needle a b : String)
    (h : strContains needle b = true) : strContains needle (a ++ b) = true := by
  unfold strContains at h ⊢
  rw [decide_eq_true_eq] at h ⊢
  rw [String.data_append]
  exact h.trans (List.suffix_append a.data b.data).isInfix

/-! ## C1 -/

/-- C1: for every received HTTP response, the result of `http_check` has
`ok = true` iff the status is in `[200, 400)` and, when the content type
indicates HTML, the trimmed body has at least 200 characters; a status in
range with a short trimmed HTML body yields `ok = false`,
`failure_type = "http"` and a message noting the content is too small;
and non-HTML responses skip the body-length check entirely. -/
theorem C1_http_check_content_rule (url : String) (r : HttpResponse) (e : Int) :
    ((http_check url (HttpOutcome.response r) e).ok = true ↔
      (200 ≤ r.status_code ∧ r.status_code < 400 ∧
        (strContains "text/html" (pyLower (r.content_type.getD "")) = true →
          200 ≤ (pyStrip r.text).length)))
    ∧ (200 ≤ r.status_code → r.status_code < 400 →
        strContains "text/html" (pyLower (r.content_type.getD "")) = true →
        (pyStrip r.text).length < 200 →
        (http_check url (HttpOutcome.response r) e).ok = false ∧
        (http_check url (HttpOutcome.response r) e).failure_type = some "http" ∧
        strContains "content too small"
          (((http_check url (HttpOutcome.response r) e).message).getD "") = true)
    ∧ (strContains "text/html" (pyLower (r.content_type.getD "")) = false →
        200 ≤ r.status_code → r.status_code < 400 →
        (http_check url (HttpOutcome.response r) e).ok = true) := by
  refine ⟨?_, ?_, ?_⟩
  · by_cases h1 : 200 ≤ r.status_code <;>
      by_cases h2 : r.status_code < 400 <;>
      by_cases h3 : strContains "text/html" (pyLower (r.content_type.getD "")) = true <;>
      by_cases h4 : (pyStrip r.text).length < 200 <;>
      (simp [http_check, h1, h2, h3, h4]; try omega)
  · intro h1 h2 h3 h4
    have hne : ¬(200 ≤ (pyStrip r.text).length) := by omega
    refine ⟨?_, ?_, ?_⟩ <;> simp [http_check, h1, h2, h3, h4]
    exact strContains_append_of_right _ _ _ (by decide)
  · intro h3 h1 h2
    simp [http_check, h1, h2, h3]

/-- Witness for C1 at a concrete 200-status HTML response with a
50-character body. -/
theorem C1_witness :
    (http_check "https://x/"
        (HttpOutcome.response
          { status_code := 200, content_type := some "text/html",
            text := String.mk (List.replicate 50 'a'), url := "https://x/" }) 10).ok = false ∧
      (http_check "https://x/"
        (HttpOutcome.response
          { status_code := 200, content_type := some "text/html",
            text := String.mk (List.replicate 50 'a'), url := "https://x/" }) 10).failure_type =
        some "http" ∧
      strContains "content too small"
        (((http_check "https://x/"
            (HttpOutcome.response
              { status_code := 200, content_type := some "text/html",
                text := String.mk (List.replicate 50 'a'), url := "https://x/" })
            10).message).getD "") = true :=
  (C1_http_check_content_rule "https://x/"
      { status_code := 200, content_type := some "text/html",
        text := String.mk (List.replicate 50 'a'), url := "https://x/" } 10).2.1
    (by decide) (by decide) (by decide) (by decide)

/-! ## C9 -/

theorem http_check_ok_failure_none (url : String) (o : HttpOutcome) (e : Int) :
    (http_check url o e).ok = true → (http_check url o e).failure_type = none := by
  cases o with
  | response r =>
    intro h
    by_cases h1 : 200 ≤ r.status_code <;>
    by_cases h2 : r.status_code < 400 <;>
    by_cases h3 : strContains "text/html" (pyLower (r.content_type.getD "")) = true <;>
    by_cases h4 : (pyStrip r.text).length < 200 <;>
    simp_all [http_check]
  | timeout => intro h; simp [http_check] at h
  | requestError m => intro h; simp [http_check] at h
  | otherError m => intro h; simp [http_check] at h

theorem runAttempts_ok_failure_none (env : CheckEnv) (url : String) :
    ∀ (l : List Nat) (acc : Option UrlCheck × Nat),
      (∀ b, acc.1 = some b → b.ok = true → b.failure_type = none) →
      ∀ b, (runAttempts env url l acc).1 = some b → b.ok = true → b.failure_type = none := by
  intro l
  induction l with
  | nil =>
    intro acc h b hb hok
    exact h b hb hok
  | cons i is ih =>
    intro acc h b hb hok
    simp only [runAttempts] at hb
    by_cases hres : (http_check url (env.httpOutcome i) (env.httpElapsed i)).ok = true
    · rw [if_pos hres] at hb
      simp only at hb
      cases hb
      exact http_check_ok_failure_none url (env.httpOutcome i) (env.httpElapsed i) hok
    · rw [if_neg hres] at hb
      refine ih _ ?_ b hb hok
      intro b' hb' hok'
      simp only at hb'
      cases hb'
      exact http_check_ok_failure_none url (env.httpOutcome i) (env.httpElapsed i) hok'

/-- C9: every `UrlCheck` produced by the per-target check (DNS short-circuit,
HTTP retry loop with all its exception arms, and the defensive fallback)
satisfies the invariant that `ok = true` implies `failure_type = none`. -/
theorem C9_ok_implies_failure_type_none (env : CheckEnv) (kind url : String) :
    (checkTarget env kind url).1.result.ok = true →
    (checkTarget env kind url).1.result.failure_type = none := by
  unfold checkTarget
  cases hp : env.parseHost url with
  | none =>
    dsimp only
    cases hr : (runAttempts env url (List.range (env.retries + 1)) (none, 0)).1 with
    | none => intro hok; simp at hok
    | some b =>
      dsimp only
      intro hok
      exact runAttempts_ok_failure_none env url _ _ (by intro b' h; cases h) b hr hok
  | some host =>
    dsimp only
    simp only [dns_check]
    cases hd : env.resolver host with
    | none =>
      dsimp only
      cases hr : (runAttempts env url (List.range (env.retries + 1)) (none, 0)).1 with
      | none => intro hok; simp at hok
      | some b =>
        dsimp only
        intro hok
        exact runAttempts_ok_failure_none env url _ _ (by intro b' h; cases h) b hr hok
    | some emsg =>
      dsimp only
      intro hok
      simp at hok

/-- Concrete environment whose single target resolves and returns a healthy
non-HTML 200 response on the first attempt. -/
def envOkW : CheckEnv :=
  { parseHost := fun _ => some "ok.example",
    resolver := fun _ => none,
    httpOutcome := fun _ =>
      .response { status_code := 200, content_type := some "application/json",
                  text := "{}", url := "https://ok.example/" },
    httpElapsed := fun _ => 5,
    retries := 2 }

/-- Witness for C9 at a concrete healthy check. -/
theorem C9_witness :
    (checkTarget envOkW "tracking" "https://ok.example/").1.result.failure_type = none :=
  C9_ok_implies_failure_type_none envOkW "tracking" "https://ok.example/" (by decide)

/-! ## C3 -/

/-- C3: when the URL has a parseable host and DNS resolution fails, the
recorded check has `ok = false` and `failure_type = "dns"`, carries the
resolver's message, makes zero HTTP attempts (hence no retries), and its
`elapsed_ms` is `none`, so no HTTP timing is recorded — the elapsed field
reflects nothing beyond the DNS step. -/
theorem C3_dns_short_circuit (env : CheckEnv) (kind url host e : String)
    (hhost : env.parseHost url = some host)
    (hfail : env.resolver host = some e) :
    (checkTarget env kind url).1.result.ok = false
    ∧ (checkTarget env kind url).1.result.failure_type = some "dns"
    ∧ (checkTarget env kind url).1.result.message = some e
    ∧ (checkTarget env kind url).2 = 0
    ∧ (checkTarget env kind url).1.result.elapsed_ms = none := by
  unfold checkTarget
  rw [hhost]
  dsimp only
  simp [dns_check, hfail]

/-- Concrete environment whose host never resolves. -/
def envDnsW : CheckEnv :=
  { parseHost := fun _ => some "bad.example",
    resolver := fun _ => some "gaierror: Name or service not known",
    httpOutcome := fun _ => .timeout,
    httpElapsed := fun _ => 0,
    retries := 2 }

/-- Witness for C3 at a concrete unresolvable host. -/
theorem C3_witness :
    (checkTarget envDnsW "domain_https" "https://bad.example").1.result.ok = false
    ∧ (checkTarget envDnsW "domain_https" "https://bad.example").1.result.failure_type =
        some "dns"
    ∧ (checkTarget envDnsW "domain_https" "https://bad.example").1.result.message =
        some "gaierror: Name or service not known"
    ∧ (checkTarget envDnsW "domain_https" "https://bad.example").2 = 0
    ∧ (checkTarget envDnsW "domain_https" "https://bad.example").1.result.elapsed_ms = none :=
  C3_dns_short_circuit envDnsW "domain_https" "https://bad.example" "bad.example"
    "gaierror: Name or service not known" rfl rfl

/-! ## Scheduler helper lemmas -/

theorem should_run_now_interval_none (cfg : AppConfig) (now : Now)
    (hm : normMode cfg = "interval") (hl : cfg.last_run_epoch = none) :
    should_run_now cfg now = .ok true := by
  simp [should_run_now, hm, hl]

theorem should_run_now_interval_some (cfg : AppConfig) (now : Now) (last : Int)
    (hm : normMode cfg = "interval") (hl : cfg.last_run_epoch = some last) :
    should_run_now cfg now =
      .ok (decide (cfg.interval_minutes * 60 ≤ now.epoch - last)) := by
  simp [should_run_now, hm, hl]

theorem should_run_now_daily_same_day (cfg : AppConfig) (now : Now)
    (hm : ¬normMode cfg = "interval")
    (hd : cfg.last_run_local_date = some now.localDate) :
    should_run_now cfg now = .ok false := by
  simp [should_run_now, hm, hd]

/-! ## C5 -/

/-- C5: in interval mode the decision is due exactly when `last_run_epoch`
is unset or `now − last_run_epoch ≥ interval_minutes × 60`; in particular
`last_run_epoch = now − interval_minutes×60 − 1` is due and
`last_run_epoch = now − interval_minutes×60 + 1` is not. -/
theorem C5_interval_decision (cfg : AppConfig) (now : Now)
    (hmode : normMode cfg = "interval") :
    (should_run_now cfg now = .ok true ↔
      (cfg.last_run_epoch = none ∨
        ∃ last, cfg.last_run_epoch = some last ∧
          cfg.interval_minutes * 60 ≤ now.epoch - last))
    ∧ (cfg.last_run_epoch = some (now.epoch - cfg.interval_minutes * 60 - 1) →
        should_run_now cfg now = .ok true)
    ∧ (cfg.last_run_epoch = some (now.epoch - cfg.interval_minutes * 60 + 1) →
        should_run_now cfg now = .ok false) := by
  refine ⟨?_, ?_, ?_⟩
  · cases hl : cfg.last_run_epoch with
    | none => simp [should_run_now_interval_none cfg now hmode hl, hl]
    | some last =>
      rw [should_run_now_interval_some cfg now last hmode hl]
      simp [hl]
  · intro hl
    rw [should_run_now_interval_some cfg now _ hmode hl]
    simp only [Except.ok.injEq, decide_eq_true_eq]
    omega
  · intro hl
    rw [should_run_now_interval_some cfg now _ hmode hl]
    simp only [Except.ok.injEq]
    rw [decide_eq_false_iff_not]
    omega

/-- Concrete interval-mode config one second past due. -/
def cfgIntervalDueW : AppConfig :=
  { schedule_mode := "interval", interval_minutes := 60,
    last_run_epoch := some (10000 - 60 * 60 - 1) }

/-- Concrete interval-mode config one second short of due. -/
def cfgIntervalNotDueW : AppConfig :=
  { schedule_mode := "interval", interval_minutes := 60,
    last_run_epoch := some (10000 - 60 * 60 + 1) }

/-- Concrete tick instant for the scheduler witnesses. -/
def nowW : Now := { epoch := 10000, localDate := "2026-10-12", localMinutes := 600 }

/-- Witness for C5 at the two boundary instants. -/
theorem C5_witness :
    should_run_now cfgIntervalDueW nowW = .ok true
    ∧ should_run_now cfgIntervalNotDueW nowW = .ok false :=
  ⟨(C5_interval_decision cfgIntervalDueW nowW (by decide)).2.1 (by decide),
   (C5_interval_decision cfgIntervalNotDueW nowW (by decide)).2.2 (by decide)⟩

/-! ## C2 -/

/-- C2: whenever a tick is judged due, `_job` persists
`last_run_epoch = now` and `last_run_local_date = today` before the run
executes (the persist event precedes the run events in the trace, and the
persisted config does not depend on whether the run raises), and a
subsequent tick within the same interval (interval mode) or on the same
local day (daily mode) is not judged due. -/
theorem C2_bookkeeping_before_run (cfg : AppConfig) (now : Now)
    (hdue : should_run_now cfg now = .ok true) (runRaises : Bool) :
    _job cfg now runRaises =
      .ok (jobPersistedCfg cfg now, .ran (jobPersistedCfg cfg now) (!runRaises))
    ∧ (jobPersistedCfg cfg now).last_run_epoch = some now.epoch
    ∧ (jobPersistedCfg cfg now).last_run_local_date = some now.localDate
    ∧ jobTrace cfg now runRaises =
        [JobEvent.persistConfig (jobPersistedCfg cfg now), JobEvent.runStart,
         JobEvent.runEnd (!runRaises)]
    ∧ (normMode cfg = "interval" →
        ∀ now2 : Now, now2.epoch - now.epoch < cfg.interval_minutes * 60 →
          should_run_now (jobPersistedCfg cfg now) now2 = .ok false)
    ∧ (normMode cfg ≠ "interval" →
        ∀ now2 : Now, now2.localDate = now.localDate →
          should_run_now (jobPersistedCfg cfg now) now2 = .ok false) := by
  have hmode2 : normMode (jobPersistedCfg cfg now) = normMode cfg := rfl
  refine ⟨?_, rfl, rfl, ?_, ?_, ?_⟩
  · simp [_job, hdue]
  · simp [jobTrace, hdue]
  · intro hm now2 hlt
    rw [should_run_now_interval_some (jobPersistedCfg cfg now) now2 now.epoch
      (hmode2.trans hm) rfl]
    have hint : (jobPersistedCfg cfg now).interval_minutes = cfg.interval_minutes := rfl
    rw [hint]
    simp only [Except.ok.injEq]
    rw [decide_eq_false_iff_not]
    omega
  · intro hm now2 hdate
    exact should_run_now_daily_same_day _ _ (by rw [hmode2]; exact hm)
      (by rw [hdate]; rfl)

/-- Concrete daily-mode config that is due at the witness instant. -/
def cfgDailyDueW : AppConfig :=
  { schedule_mode := "daily_at", run_at_hhmm := "09:30",
    last_run_local_date := some "2026-10-11" }

/-- Witness for C2: a due daily-mode tick persists the date and the same
local day is then never due, even though the run raised. -/
theorem C2_witness :
    _job cfgDailyDueW nowW true =
      .ok (jobPersistedCfg cfgDailyDueW nowW, .ran (jobPersistedCfg cfgDailyDueW nowW) false)
    ∧ should_run_now (jobPersistedCfg cfgDailyDueW nowW)
        { epoch := 20000, localDate := "2026-10-12", localMinutes := 1400 } = .ok false :=
  ⟨(C2_bookkeeping_before_run cfgDailyDueW nowW (by rfl) true).1,
   (C2_bookkeeping_before_run cfgDailyDueW nowW (by rfl) true).2.2.2.2.2
     (by decide) { epoch := 20000, localDate := "2026-10-12", localMinutes := 1400 } rfl⟩

/-! ## C4 -/

/-- Daily-mode config whose `run_at_hhmm` parses to the out-of-range hour
25; the claim's 17:00 fallback would make it due at 18:00 local. -/
def cfgC4 : AppConfig :=
  { schedule_mode := "daily_at", run_at_hhmm := "25:00",
    last_run_local_date := some "2026-10-11" }

/-- Tick instant at 18:00 local on a new day. -/
def nowC4 : Now := { epoch := 0, localDate := "2026-10-12", localMinutes := 1080 }

/-- Counterexample to C4 as stated: `"25:00"` is a malformed `run_at_hhmm`
(not a valid wall-clock time), yet the decision does not behave as if the
target were 17:00 — the 17:00 behaviour at this instant is `ok true`, while
the code raises `ValueError` from `datetime.replace`, which sits outside
the parsing `try`. -/
theorem C4_counterexample :
    should_run_now cfgC4 nowC4 = .error .valueError
    ∧ should_run_now { cfgC4 with run_at_hhmm := "17:00" } nowC4 = .ok true := by
  constructor <;> rfl

/-- C4 (amended): in daily mode the decision is never due when
`last_run_local_date` equals today; otherwise, when the parsed trigger time
is an in-range hour and minute, it is due exactly when the local time has
reached `hh:mm`; an out-of-range parsed hour or minute raises `ValueError`
instead of falling back; and the 17:00 fallback applies exactly to strings
that fail to split-and-parse as two colon-separated integers. -/
theorem C4_daily_decision (cfg : AppConfig) (now : Now)
    (hmode : normMode cfg ≠ "interval") :
    (cfg.last_run_local_date = some now.localDate → should_run_now cfg now = .ok false)
    ∧ (cfg.last_run_local_date ≠ some now.localDate →
        (0 ≤ (parseHHMM cfg.run_at_hhmm).1 ∧ (parseHHMM cfg.run_at_hhmm).1 ≤ 23 ∧
         0 ≤ (parseHHMM cfg.run_at_hhmm).2 ∧ (parseHHMM cfg.run_at_hhmm).2 ≤ 59 →
          should_run_now cfg now =
            .ok (decide ((parseHHMM cfg.run_at_hhmm).1 * 60 + (parseHHMM cfg.run_at_hhmm).2 ≤
              (now.localMinutes : Int))))
        ∧ (¬(0 ≤ (parseHHMM cfg.run_at_hhmm).1 ∧ (parseHHMM cfg.run_at_hhmm).1 ≤ 23 ∧
             0 ≤ (parseHHMM cfg.run_at_hhmm).2 ∧ (parseHHMM cfg.run_at_hhmm).2 ≤ 59) →
            should_run_now cfg now = .error .valueError))
    ∧ (parseHHMMCore cfg.run_at_hhmm = none → parseHHMM cfg.run_at_hhmm = (17, 0)) := by
  refine ⟨?_, ?_, ?_⟩
  · intro hdate
    simp [should_run_now, hmode, hdate]
  · intro hdate
    constructor
    · intro hrange
      simp [should_run_now, hmode, hdate, hrange]
    · intro hrange
      simp [should_run_now, hmode, hdate, hrange]
  · intro hcore
    simp [parseHHMM, hcore]

/-- Daily-mode config with a syntactically unparseable `run_at_hhmm`. -/
def cfgDailyBadSyntax : AppConfig :=
  { schedule_mode := "daily_at", run_at_hhmm := "five pm",
    last_run_local_date := some "2026-10-11" }

/-- Witness for C4 (amended): a never-due same-day instance, an in-range
instance evaluated at 18:00 local, and the fallback on an unparseable
string. -/
theorem C4_witness :
    should_run_now { cfgC4 with last_run_local_date := some "2026-10-12" } nowC4 = .ok false
    ∧ should_run_now { cfgC4 with run_at_hhmm := "09:30" } nowC4 = .ok true
    ∧ parseHHMM cfgDailyBadSyntax.run_at_hhmm = (17, 0) :=
  ⟨(C4_daily_decision { cfgC4 with last_run_local_date := some "2026-10-12" } nowC4
      (by decide)).1 rfl,
   by
    have h := ((C4_daily_decision { cfgC4 with run_at_hhmm := "09:30" } nowC4
      (by decide)).2.1 (by decide)).1 (by decide)
    simpa using h,
   (C4_daily_decision cfgDailyBadSyntax nowC4 (by decide)).2.2 (by decide)⟩

/-! ## Activity-filter helper lemmas -/

theorem mapLookup_pyInsert_self (m : List (String × Stats)) (k : String) (v : Stats) :
    mapLookup (pyInsert m k v) k = some v := by
  induction m with
  | nil => simp [pyInsert, mapLookup]
  | cons p ps ih =>
    by_cases h : p.1 = k
    · simp [pyInsert, h, mapLookup]
    · simp [pyInsert, h, mapLookup, ih]

theorem mapLookup_pyInsert_ne (m : List (String × Stats)) (k k' : String) (v : Stats)
    (h : k ≠ k') : mapLookup (pyInsert m k v) k' = mapLookup m k' := by
  induction m with
  | nil => simp [pyInsert, mapLookup, h]
  | cons p ps ih =>
    by_cases hp : p.1 = k
    · have hpk : ¬p.1 = k' := by rw [hp]; exact h
      simp [pyInsert, hp, mapLookup, h, hpk]
    · by_cases hq : p.1 = k'
      · simp [pyInsert, hp, mapLookup, hq, Ne.symm h]
      · simp [pyInsert, hp, mapLookup, hq, ih]

/-- Row qualification for a given campaign id, exactly the conditions under
which the loop body of `filter_campaigns_with_activity` writes an entry for
that id. -/
def rowQualB (ids : List String) (cid : String) (row : PyDict) : Bool :=
  decide (resolveCid row cidKeys = some cid) && !decide (cid = "") &&
    decide (cid ∈ ids) && (decide (0 < rowCost row) || decide (0 < rowRev row))

/-- Last row of the list, in input order, that qualifies for `cid`. -/
def lastQual (ids : List String) (cid : String) : List PyDict → Option PyDict
  | [] => none
  | row :: rest =>
    match lastQual ids cid rest with
    | some r => some r
    | none => if rowQualB ids cid row then some row else none

theorem filterStep_mapLookup_qual (ids : List String) (cid : String)
    (m : List (String × Stats)) (row : PyDict)
    (hq : rowQualB ids cid row = true) :
    mapLookup (filterStep ids m row) cid = some ⟨rowCost row, rowRev row⟩ := by
  unfold rowQualB at hq
  simp only [Bool.and_eq_true, Bool.or_eq_true, decide_eq_true_eq,
    Bool.not_eq_true', decide_eq_false_iff_not] at hq
  obtain ⟨⟨⟨h1, h2⟩, h3⟩, h4⟩ := hq
  unfold filterStep
  rw [h1]
  dsimp only
  rw [if_neg (by simp [h2, h3])]
  rw [if_pos (by rcases h4 with h | h; exacts [Or.inl h, Or.inr h])]
  exact mapLookup_pyInsert_self m cid _

theorem filterStep_mapLookup_not_qual (ids : List String) (cid : String)
    (m : List (String × Stats)) (row : PyDict)
    (hq : ¬rowQualB ids cid row = true) :
    mapLookup (filterStep ids m row) cid = mapLookup m cid := by
  unfold filterStep
  cases hres : resolveCid row cidKeys with
  | none => rfl
  | some cid2 =>
    dsimp only
    by_cases hg : cid2 = "" ∨ cid2 ∉ ids
    · rw [if_pos hg]
    · rw [if_neg hg]
      by_cases hmoney : 0 < rowCost row ∨ 0 < rowRev row
      · rw [if_pos hmoney]
        have hne : cid2 ≠ cid := by
          intro hEq
          subst hEq
          apply hq
          have hg2 := not_or.mp hg
          unfold rowQualB
          simp only [Bool.and_eq_true, Bool.or_eq_true, decide_eq_true_eq,
            Bool.not_eq_true', decide_eq_false_iff_not]
          exact ⟨⟨⟨hres, hg2.1⟩, not_not.mp hg2.2⟩, hmoney⟩
        exact mapLookup_pyInsert_ne m cid2 cid _ hne
      · rw [if_neg hmoney]

theorem foldl_filterStep_mapLookup (ids : List String) (cid : String) :
    ∀ (rows : List PyDict) (m : List (String × Stats)),
      mapLookup (rows.foldl (filterStep ids) m) cid =
        match lastQual ids cid rows with
        | some r => some ⟨rowCost r, rowRev r⟩
        | none => mapLookup m cid := by
  intro rows
  induction rows with
  | nil => intro m; rfl
  | cons row rest ih =>
    intro m
    rw [List.foldl_cons, ih]
    cases hlast : lastQual ids cid rest with
    | some r => simp [lastQual, hlast]
    | none =>
      simp only [lastQual, hlast]
      by_cases hq : rowQualB ids cid row = true
      · rw [if_pos hq]
        exact filterStep_mapLookup_qual ids cid m row hq
      · rw [if_neg hq]
        exact filterStep_mapLookup_not_qual ids cid m row hq

theorem lastQual_isSome_iff (ids : List String) (cid : String) :
    ∀ rows : List PyDict,
      (lastQual ids cid rows).isSome = true ↔
        ∃ row ∈ rows, rowQualB ids cid row = true := by
  intro rows
  induction rows with
  | nil => simp [lastQual]
  | cons row rest ih =>
    simp only [lastQual]
    cases hlast : lastQual ids cid rest with
    | some r =>
      simp only [Option.isSome_some, true_iff]
      have := ih.mp (by rw [hlast]; rfl)
      obtain ⟨r2, hr2, hq2⟩ := this
      exact ⟨r2, List.mem_cons_of_mem row hr2, hq2⟩
    | none =>
      rw [hlast] at ih
      by_cases hq : rowQualB ids cid row = true
      · simp only [if_pos hq, Option.isSome_some, true_iff]
        exact ⟨row, List.mem_cons_self row rest, hq⟩
      · rw [if_neg hq]
        constructor
        · intro h; simp at h
        · rintro ⟨r2, hr2, hq2⟩
          rcases List.mem_cons.mp hr2 with h | h
          · exact absurd (h ▸ hq2) hq
          · have hcontra := ih.mpr ⟨r2, h, hq2⟩
            simp at hcontra

/-! ## C10 -/

/-- C10: the Activity Filter's entry for a campaign id holds exactly the
cost and revenue of the last qualifying row in input order — later
qualifying rows overwrite earlier ones, and values are never summed. -/
theorem C10_last_qualifying_row_wins (campaigns report_rows : List PyDict) (cid : String) :
    mapLookup (filter_campaigns_with_activity campaigns report_rows) cid =
      (lastQual (knownIds campaigns) cid report_rows).map
        (fun row => ⟨rowCost row, rowRev row⟩) := by
  unfold filter_campaigns_with_activity
  rw [foldl_filterStep_mapLookup]
  cases lastQual (knownIds campaigns) cid report_rows <;> simp [mapLookup]

/-! ## C6 -/

/-- Campaign list with an empty-string campaign id, and a report row that
resolves to that empty id with positive cost. -/
def cexCampaignsC6 : List PyDict := [[("id", Value.vStr "")]]

/-- Report row resolving to the empty-string id with cost 5. -/
def cexRowC6 : PyDict := [("campaign_id", Value.vStr ""), ("cost", Value.vInt 5)]

/-- Counterexample to C6 as stated: this row resolves (via the first-present
key) to the id `""`, whose stringification is in the known-id set, and has
cost > 0, so the claim requires an output entry; but the code's `not cid`
truthiness guard discards the row and the output map is empty. -/
theorem C6_counterexample :
    resolveCid cexRowC6 cidKeys = some ""
    ∧ "" ∈ knownIds cexCampaignsC6
    ∧ (0 : Rat) < rowCost cexRowC6
    ∧ filter_campaigns_with_activity cexCampaignsC6 [cexRowC6] = [] := by
  refine ⟨rfl, by decide, by decide, rfl⟩

/-- C6 (amended): the Activity Filter's output has an entry for `cid`
exactly when `cid` is non-empty (the code's truthiness guard), `cid` is in
the known campaign-id set, and some report row resolves to `cid` via the
prioritized keys with extracted cost > 0 or revenue > 0; rows with
cost = 0 and revenue = 0, rows with unknown ids, and rows resolving to the
empty string never contribute an entry. -/
theorem C6_activity_filter_membership (campaigns report_rows : List PyDict) (cid : String) :
    (mapLookup (filter_campaigns_with_activity campaigns report_rows) cid).isSome = true ↔
      (cid ≠ "" ∧ cid ∈ knownIds campaigns ∧
        ∃ row ∈ report_rows, resolveCid row cidKeys = some cid ∧
          (0 < rowCost row ∨ 0 < rowRev row)) := by
  unfold filter_campaigns_with_activity
  rw [foldl_filterStep_mapLookup]
  have hbase : mapLookup [] cid = none := rfl
  constructor
  · intro h
    cases hlast : lastQual (knownIds campaigns) cid report_rows with
    | none => rw [hlast, hbase] at h; cases h
    | some r =>
      have hex := (lastQual_isSome_iff (knownIds campaigns) cid report_rows).mp
        (by rw [hlast]; rfl)
      obtain ⟨row, hrow, hq⟩ := hex
      unfold rowQualB at hq
      simp only [Bool.and_eq_true, Bool.or_eq_true, decide_eq_true_eq,
        Bool.not_eq_true', decide_eq_false_iff_not] at hq
      obtain ⟨⟨⟨h1, h2⟩, h3⟩, h4⟩ := hq
      exact ⟨h2, h3, row, hrow, h1,
        by rcases h4 with h' | h'; exacts [Or.inl h', Or.inr h']⟩
  · rintro ⟨hne, hmem, row, hrow, hres, hmoney⟩
    have hq : rowQualB (knownIds campaigns) cid row = true := by
      unfold rowQualB
      simp only [Bool.and_eq_true, Bool.or_eq_true, decide_eq_true_eq,
        Bool.not_eq_true', decide_eq_false_iff_not]
      exact ⟨⟨⟨hres, hne⟩, hmem⟩, hmoney⟩
    have hsome := (lastQual_isSome_iff (knownIds campaigns) cid report_rows).mpr
      ⟨row, hrow, hq⟩
    cases hlast : lastQual (knownIds campaigns) cid report_rows with
    | none => rw [hlast] at hsome; simp at hsome
    | some r => rfl

/-! ## Batcher helper lemmas -/

theorem length_dropWhile_le (p : Char → Bool) (l : List Char) :
    (l.dropWhile p).length ≤ l.length := by
  induction l with
  | nil => simp
  | cons c cs ih =>
    by_cases h : p c
    · rw [List.dropWhile_cons, if_pos h]
      exact le_trans ih (by simp)
    · rw [List.dropWhile_cons, if_neg h]

theorem pyRstrip_length_le (s : String) : (pyRstrip s).length ≤ s.length := by
  have h := length_dropWhile_le pyIsSpace s.data.reverse
  rw [List.length_reverse] at h
  unfold pyRstrip
  show ((s.data.reverse.dropWhile pyIsSpace).reverse).length ≤ s.data.length
  rw [List.length_reverse]
  exact h

theorem sendManyLoop_length_le (m : Int) :
    ∀ (lines : List String) (chunk : String) (sent : Int) (acc : List String),
      sent < m →
      ((sendManyLoop m lines chunk sent acc).length : Int) ≤ acc.length + (m - sent) := by
  intro lines
  induction lines with
  | nil =>
    intro chunk sent acc hs
    simp only [sendManyLoop]
    split
    · simp only [List.length_append, List.length_singleton]
      push_cast
      omega
    · omega
  | cons line rest ih =>
    intro chunk sent acc hs
    simp only [sendManyLoop]
    split
    · split
      · simp only [List.length_append, List.length_singleton]
        push_cast
        omega
      · rename_i hcap
        have hlt : sent + 1 < m := by omega
        have h2 := ih (line ++ "\n") (sent + 1) (acc ++ [pyRstrip chunk]) hlt
        simp only [List.length_append, List.length_singleton] at h2
        push_cast at h2 ⊢
        omega
    · exact ih (chunk ++ (line ++ "\n")) sent acc hs

theorem sendManyLoop_budget (m : Int) :
    ∀ (lines : List String), (∀ l ∈ lines, l.length + 1 ≤ 3800) →
      ∀ (chunk : String) (sent : Int) (acc : List String),
        chunk.length ≤ 3800 → (∀ msg ∈ acc, msg.length ≤ 3800) →
        ∀ msg ∈ sendManyLoop m lines chunk sent acc, msg.length ≤ 3800 := by
  intro lines
  induction lines with
  | nil =>
    intro _ chunk sent acc hc hacc msg hmsg
    simp only [sendManyLoop] at hmsg
    split at hmsg
    · rcases List.mem_append.mp hmsg with h | h
      · exact hacc msg h
      · rw [List.mem_singleton.mp h]
        exact le_trans (pyRstrip_length_le chunk) hc
    · exact hacc msg hmsg
  | cons line rest ih =>
    intro hl chunk sent acc hc hacc msg hmsg
    have hline : line.length + 1 ≤ 3800 := hl line (List.mem_cons_self line rest)
    have hrest : ∀ l ∈ rest, l.length + 1 ≤ 3800 :=
      fun l h => hl l (List.mem_cons_of_mem line h)
    have haccflush : ∀ msg2 ∈ acc ++ [pyRstrip chunk], msg2.length ≤ 3800 := by
      intro msg2 h2
      rcases List.mem_append.mp h2 with h | h
      · exact hacc msg2 h
      · rw [List.mem_singleton.mp h]
        exact le_trans (pyRstrip_length_le chunk) hc
    simp only [sendManyLoop] at hmsg
    split at hmsg
    · split at hmsg
      · exact haccflush msg hmsg
      · refine ih hrest (line ++ "\n") (sent + 1) (acc ++ [pyRstrip chunk]) ?_ haccflush
          msg hmsg
        have hnl : ("\n" : String).length = 1 := rfl
        rw [String.length_append, hnl]
        omega
    · rename_i hnoflush
      refine ih hrest (chunk ++ (line ++ "\n")) sent acc ?_ hacc msg hmsg
      rw [String.length_append]
      omega

/-! ## C7 -/

/-- Single line one character longer than the 3800-character budget. -/
def cexLongLine : String := String.mk (List.replicate 3801 'a')

theorem cexLongLine_length : cexLongLine.length = 3801 := by
  show (List.replicate 3801 'a').length = 3801
  exact List.length_replicate 3801 'a'

theorem dropWhile_replicate_a :
    List.dropWhile pyIsSpace (List.replicate 3801 'a') = List.replicate 3801 'a' := by
  rw [show (3801 : Nat) = 3800 + 1 from rfl, List.replicate_succ, List.dropWhile_cons]
  rw [if_neg (by decide : ¬pyIsSpace 'a' = true)]

theorem cexLongLine_append_data :
    (cexLongLine ++ "\n").data = List.replicate 3801 'a' ++ ['\n'] := by
  rw [String.data_append]
  rfl

theorem cexLongLine_append_length : (cexLongLine ++ "\n").length = 3802 := by
  rw [String.length_append, cexLongLine_length]
  rfl

theorem pyRstrip_cexLongLine : pyRstrip (cexLongLine ++ "\n") = cexLongLine := by
  unfold pyRstrip
  rw [cexLongLine_append_data, List.reverse_append, List.reverse_replicate]
  show String.mk ((List.dropWhile pyIsSpace
    ('\n' :: List.replicate 3801 'a')).reverse) = cexLongLine
  rw [List.dropWhile_cons]
  simp only [show pyIsSpace '\n' = true from rfl, if_pos]
  rw [dropWhile_replicate_a, List.reverse_replicate]
  rfl

theorem pyStrip_cexLongLine : pyStrip (cexLongLine ++ "\n") = cexLongLine := by
  unfold pyStrip stripList
  rw [cexLongLine_append_data]
  rw [show List.replicate 3801 'a' ++ ['\n'] = 'a' :: (List.replicate 3800 'a' ++ ['\n'])
    from by rw [show (3801 : Nat) = 3800 + 1 from rfl, List.replicate_succ]; rfl]
  rw [List.dropWhile_cons]
  simp only [show pyIsSpace 'a' = false from rfl, if_neg, Bool.false_eq_true,
    not_false_iff]
  rw [show 'a' :: (List.replicate 3800 'a' ++ ['\n']) =
    List.replicate 3801 'a' ++ ['\n'] from by
      rw [show (3801 : Nat) = 3800 + 1 from rfl, List.replicate_succ]; rfl]
  rw [List.reverse_append, List.reverse_replicate]
  show String.mk ((List.dropWhile pyIsSpace
    ('\n' :: List.replicate 3801 'a')).reverse) = cexLongLine
  rw [List.dropWhile_cons]
  simp only [show pyIsSpace '\n' = true from rfl, if_pos]
  rw [dropWhile_replicate_a, List.reverse_replicate]
  rfl

theorem cexLongLine_ne_empty : cexLongLine ≠ "" := by
  intro h
  have hl := congrArg String.length h
  rw [cexLongLine_length] at hl
  cases hl

theorem send_many_cexLongLine : send_many [cexLongLine] 25 none = ["", cexLongLine] := by
  unfold send_many
  dsimp only
  rw [if_neg (by omega : ¬(25 : Int) ≤ 0)]
  simp only [sendManyLoop]
  rw [if_pos (by rw [cexLongLine_append_length]; decide)]
  rw [if_neg (by omega : ¬(0 : Int) + 1 ≥ 25)]
  rw [if_pos ⟨by rw [pyStrip_cexLongLine]; exact cexLongLine_ne_empty, by omega⟩]
  rw [pyRstrip_cexLongLine]
  rfl

/-- Counterexample to C7 as stated: the claim requires every produced
message to fit the per-message character budget, but with one
3801-character input line the batcher first flushes the empty buffer (an
empty message) and then emits the 3801-character line as a message
exceeding the 3800-character budget. -/
theorem C7_counterexample :
    ∃ msg ∈ send_many [cexLongLine] 25 none, 3800 < msg.length := by
  refine ⟨cexLongLine, ?_, ?_⟩
  · rw [send_many_cexLongLine]
    simp
  · rw [cexLongLine_length]
    omega

/-- C7 (amended): the batcher produces at most `max_messages` messages
(lines remaining after the cap are dropped, a non-empty trailing buffer is
flushed below the cap, and the buffer is flushed whenever appending the
next line would exceed the budget — this is the definition of `send_many`);
and every produced message fits the 3800-character budget provided each
input line itself fits the budget (line length + newline ≤ 3800).  A line
longer than the budget is emitted as a single over-budget message. -/
theorem C7_batcher_cap_and_budget (lines : List String) (m : Int) :
    ((send_many lines m none).length : Int) ≤ max m 0
    ∧ ((∀ l ∈ lines, l.length + 1 ≤ 3800) →
        ∀ msg ∈ send_many lines m none, msg.length ≤ 3800) := by
  constructor
  · unfold send_many
    dsimp only
    by_cases hm : m ≤ 0
    · rw [if_pos hm]
      simp
    · rw [if_neg hm]
      have h := sendManyLoop_length_le m lines "" 0 [] (by omega)
      simp only [List.length_nil] at h
      have hmax : (max m 0) = m := by omega
      rw [hmax]
      omega
  · intro hl msg hmsg
    unfold send_many at hmsg
    dsimp only at hmsg
    by_cases hm : m ≤ 0
    · rw [if_pos hm] at hmsg
      cases hmsg
    · rw [if_neg hm] at hmsg
      exact sendManyLoop_budget m lines hl "" 0 [] (by simp) (by simp) msg hmsg

/-- Witness for C7 (amended) at two short lines with a cap of one. -/
theorem C7_witness :
    ((send_many ["a", "b"] 1 none).length : Int) ≤ max 1 0
    ∧ ∀ msg ∈ send_many ["a", "b"] 1 none, msg.length ≤ 3800 :=
  ⟨(C7_batcher_cap_and_budget ["a", "b"] 1).1,
   (C7_batcher_cap_and_budget ["a", "b"] 1).2 (by decide)⟩

/-! ## C8 -/

/-- Counterexample to C8 as stated: a campaign document whose `streams`
field holds the (truthy, non-container) integer 5 makes the extractor raise
`TypeError` when iterating it, contradicting "never raises on absent or
differently-typed nested fields". -/
theorem C8_counterexample :
    extract_urls_from_campaign [("streams", Value.vInt 5)] = .error .typeError := rfl

/-- C8 (amended): the extractor is a pure function; on success its
`landing_ids` is sorted, duplicate-free, and contains exactly the
identifiers collected from every stream's landings and prelandings
sub-lists; an absent or falsy `streams` field is treated as empty and never
raises (while a truthy ill-typed nested field raises, per the
counterexample); and applying it twice yields the identical result, so
`landing_ids` is order-stable. -/
theorem C8_extractor_properties (c : PyDict) :
    (∀ r, extract_urls_from_campaign c = .ok r →
      r.landing_ids.Sorted (· ≤ ·) ∧ r.landing_ids.Nodup ∧
      (∀ s, s ∈ r.landing_ids ↔ ∃ ids, collectLandingIds c = .ok ids ∧ s ∈ ids))
    ∧ (pyTruthy ((pyGet c "streams").getD .vNull) = false →
        extract_urls_from_campaign c =
          .ok { tracking_url := _pick_str c trackingKeys,
                domain_id := _pick_str c ["domain_id"], landing_ids := [] })
    ∧ extract_urls_from_campaign c = extract_urls_from_campaign c := by
  refine ⟨?_, ?_, rfl⟩
  · intro r hr
    cases hids : collectLandingIds c with
    | error e =>
      unfold extract_urls_from_campaign at hr
      rw [hids] at hr
      cases hr
    | ok ids =>
      unfold extract_urls_from_campaign at hr
      rw [hids] at hr
      dsimp only at hr
      cases hr
      have htrans : ∀ a b c2 : String, decide (a ≤ b) = true →
          decide (b ≤ c2) = true → decide (a ≤ c2) = true := by
        intro a b c2 hab hbc
        simp only [decide_eq_true_eq] at hab hbc ⊢
        exact le_trans hab hbc
      have htotal : ∀ a b : String, (decide (a ≤ b) || decide (b ≤ a)) = true := by
        intro a b
        simp only [Bool.or_eq_true, decide_eq_true_eq]
        exact le_total a b
      refine ⟨?_, ?_, ?_⟩
      · exact (List.sorted_mergeSort htrans htotal ids.dedup).imp
          (fun h => of_decide_eq_true h)
      · exact ((List.mergeSort_perm ids.dedup _).symm).nodup (List.nodup_dedup ids)
      · intro s
        rw [List.mem_mergeSort, List.mem_dedup]
        constructor
        · intro hs
          exact ⟨ids, rfl, hs⟩
        · rintro ⟨ids2, hids2, hs⟩
          cases hids2
          exact hs
  · intro hfalsy
    have hstreams : getOr c "streams" (.vList []) = .vList [] := by
      unfold getOr pyOr
      simp [hfalsy]
    have hcoll : collectLandingIds c = .ok [] := by
      unfold collectLandingIds
      rw [hstreams]
      rfl
    unfold extract_urls_from_campaign
    rw [hcoll]
    dsimp only
    rw [List.dedup_nil, List.mergeSort_nil]

/-- Witness for C8 (amended) at the empty campaign document. -/
theorem C8_witness :
    extract_urls_from_campaign ([] : PyDict) =
      .ok { tracking_url := _pick_str ([] : PyDict) trackingKeys,
            domain_id := _pick_str ([] : PyDict) ["domain_id"], landing_ids := [] } :=
  (C8_extractor_properties ([] : PyDict)).2.1 rfl

end DomainCheck
